import Mathlib

/-!
Shallow embedding of the session/state-machine core of the keylybot
repository (a Telegram property-listing bot), for checking its
natural-language specification.

The embedding follows the source:
  - src/server.js        : processMessage (lines 247-344), the webhook
                           handler with its processedMessages dedup set
                           (lines 112-113, 384-392), sendTelegramMessage
                           (lines 116-134), and the Google Sheets session
                           store variant (getUserSession, lines 514-545).
  - src/airtableConfig.js: withRetry (lines 52-66), addProperty
                           (lines 73-121), getUserSession (lines 124-196),
                           and the embedded webhook variant that evicts
                           from processedMessages past 1000 entries
                           (lines 594-608).

Network, AI and storage backends are modeled by their observable outcomes:
a reply send is counted, an addProperty call is recorded as the record it
creates, an updateUserSession call is recorded as the written
(state, data) pair, and the uploaded image URL produced by handleImage is
carried on the inbound event.
-/

/-- Result of the JavaScript parseInt coercion: an integer value or NaN.
NaN is what parseInt returns on input with no leading numeric prefix; when
the session data is serialized to JSON between events, NaN becomes null,
which is likewise a non-integer junk value and is represented by the same
constructor here. -/
inductive JsNum where
  | val (n : Int)
  | nan
deriving DecidableEq, Repr

/-- Hexadecimal digit value of a character, if it is one. -/
def hexDigitVal (c : Char) : Option Nat :=
  if '0' ≤ c ∧ c ≤ '9' then some (c.toNat - '0'.toNat)
  else if 'a' ≤ c ∧ c ≤ 'f' then some (c.toNat - 'a'.toNat + 10)
  else if 'A' ≤ c ∧ c ≤ 'F' then some (c.toNat - 'A'.toNat + 10)
  else none

/-- Decimal digit value of a character, if it is one. -/
def decDigitVal (c : Char) : Option Nat :=
  if '0' ≤ c ∧ c ≤ '9' then some (c.toNat - '0'.toNat) else none

/-- Longest prefix of digit values under the given digit reader. -/
def takeDigits (dv : Char → Option Nat) : List Char → List Nat
  | [] => []
  | c :: cs =>
    match dv c with
    | some d => d :: takeDigits dv cs
    | none => []

/-- Value of a digit list under a radix, most significant first. -/
def digitsVal (radix : Nat) (ds : List Nat) : Nat :=
  ds.foldl (fun a d => a * radix + d) 0

/-- Model of the ECMAScript parseInt(string) coercion with an undefined
radix argument, as used at src/server.js lines 270, 276, 282 and 288:
skip leading whitespace, read an optional sign, switch to base 16 on a 0x
or 0X prefix, then read the longest digit prefix; no digits means NaN. -/
def jsParseInt (s : String) : JsNum :=
  let cs := s.data.dropWhile Char.isWhitespace
  let signed : Bool × List Char :=
    match cs with
    | '-' :: rest => (true, rest)
    | '+' :: rest => (false, rest)
    | _ => (false, cs)
  let based : Nat × List Char :=
    match signed.2 with
    | '0' :: 'x' :: rest => (16, rest)
    | '0' :: 'X' :: rest => (16, rest)
    | _ => (10, signed.2)
  let dv := if based.1 = 16 then hexDigitVal else decDigitVal
  let ds := takeDigits dv based.2
  if ds.isEmpty then JsNum.nan
  else
    let n : Int := Int.ofNat (digitsVal based.1 ds)
    JsNum.val (if signed.1 then -n else n)

/-- ASCII lowercase of one character, modeling what
String.prototype.toLowerCase does on the ASCII inputs this bot compares
against (the comparands are the literals yes and done). -/
def jsLowerChar (c : Char) : Char :=
  if 'A' ≤ c ∧ c ≤ 'Z' then Char.ofNat (c.toNat + 32) else c

/-- Model of text.toLowerCase() from src/server.js lines 311 and 321. -/
def jsToLowerCase (s : String) : String :=
  String.mk (s.data.map jsLowerChar)

/-- The collectedData object accumulated by processMessage: one optional
slot per field the code ever assigns (src/server.js lines 258-331). An
absent field is none. -/
structure CollectedData where
  address : Option String
  zip : Option String
  bedrooms : Option JsNum
  bathrooms : Option JsNum
  size : Option JsNum
  price : Option JsNum
  amenities : Option String
  imageUrl : Option (List String)
deriving DecidableEq, Repr

/-- The empty collectedData object, JSON text left-brace right-brace. -/
def emptyData : CollectedData :=
  ⟨none, none, none, none, none, none, none, none⟩

/-- Fields of a Properties record as read by addProperty
(src/airtableConfig.js lines 80-105) from its propertyData argument,
restricted to the fields any caller in the repository ever supplies.
A field the caller did not pass arrives as undefined, modeled none. -/
structure PropertyRecord where
  telegramId : Option String
  address : Option String
  zip : Option String
  bedrooms : Option JsNum
  bathrooms : Option JsNum
  size : Option JsNum
  price : Option JsNum
  amenities : Option String
  imageUrl : Option (List String)
deriving DecidableEq, Repr

/-- Record created by the addProperty call at src/server.js lines 322-325:
the spread of collectedData plus telegramId. -/
def propertyFromData (chatId : String) (d : CollectedData) : PropertyRecord :=
  ⟨some chatId, d.address, d.zip, d.bedrooms, d.bathrooms, d.size, d.price,
    d.amenities, d.imageUrl⟩

/-- Record created by the addProperty call inside handleImage
(src/server.js lines 211-216). That call passes an object with keys
propertyId and imageUrls, but addProperty reads the keys telegramId,
address, zip, size, bedrooms, bathrooms, price, amenities and imageUrl,
none of which are present, so every field of the created record is
undefined. -/
def photoSideRecord : PropertyRecord :=
  ⟨none, none, none, none, none, none, none, none, none⟩

/-- Observable outcome of one processMessage call: the updateUserSession
write it performs, if any (new state and new collectedData); the number of
sendTelegramMessage calls; and the addProperty records it creates, in
order. -/
structure StepResult where
  write : Option (String × CollectedData)
  replies : Nat
  persisted : List PropertyRecord
deriving DecidableEq, Repr

/-- Switch statement of processMessage (src/server.js lines 251-343),
dispatching on the already-defaulted state value. The inbound photo
attachment, when present, is represented by the URL that handleImage
would return for it after upload. -/
def processMessageSwitch (chatId : String) (text : String)
    (photoUrl : Option String) (state : String)
    (collectedData : CollectedData) : StepResult :=
  if state == "initial" then
    { write := some ("awaiting_address", collectedData), replies := 1, persisted := [] }
  else if state == "awaiting_address" then
    { write := some ("awaiting_zip", { collectedData with address := some text }),
      replies := 1, persisted := [] }
  else if state == "awaiting_zip" then
    { write := some ("awaiting_bedrooms", { collectedData with zip := some text }),
      replies := 1, persisted := [] }
  else if state == "awaiting_bedrooms" then
    { write := some ("awaiting_bathrooms",
        { collectedData with bedrooms := some (jsParseInt text) }),
      replies := 1, persisted := [] }
  else if state == "awaiting_bathrooms" then
    { write := some ("awaiting_size",
        { collectedData with bathrooms := some (jsParseInt text) }),
      replies := 1, persisted := [] }
  else if state == "awaiting_size" then
    { write := some ("awaiting_price",
        { collectedData with size := some (jsParseInt text) }),
      replies := 1, persisted := [] }
  else if state == "awaiting_price" then
    { write := some ("awaiting_amenities",
        { collectedData with price := some (jsParseInt text) }),
      replies := 1, persisted := [] }
  else if state == "awaiting_amenities" then
    { write := some ("awaiting_confirmation",
        { collectedData with amenities := some text }),
      replies := 1, persisted := [] }
  else if state == "awaiting_confirmation" then
    if jsToLowerCase text == "yes" then
      { write := some ("awaiting_images", collectedData), replies := 1, persisted := [] }
    else
      { write := some ("awaiting_address", emptyData), replies := 1, persisted := [] }
  else if state == "awaiting_images" then
    if jsToLowerCase text == "done" then
      { write := some ("initial", emptyData), replies := 1,
        persisted := [propertyFromData chatId collectedData] }
    else
      match photoUrl with
      | some u =>
        { write := some ("awaiting_images",
            { collectedData with
                imageUrl := some ((collectedData.imageUrl.getD []) ++ [u]) }),
          replies := 1, persisted := [photoSideRecord] }
      | none =>
        { write := none, replies := 1, persisted := [] }
  else
    { write := some ("awaiting_address", emptyData), replies := 1, persisted := [] }

/-- Model of processMessage (src/server.js lines 247-344). The
empty-string state models the falsy default at line 248
(Current_State or initial). -/
def processMessage (chatId : String) (text : String) (photoUrl : Option String)
    (currentState : String) (collectedData : CollectedData) : StepResult :=
  processMessageSwitch chatId text photoUrl
    (if currentState == "" then "initial" else currentState) collectedData

/-- One inbound message as processMessage sees it: its text (empty string
when the Telegram payload has no text field, src/server.js line 374) and
the uploaded URL of its photo attachment, if any. -/
structure InMsg where
  text : String
  photoUrl : Option String
deriving DecidableEq, Repr

/-- Text-only message. -/
def textMsg (t : String) : InMsg := ⟨t, none⟩

/-- Photo message with no caption text. -/
def photoMsg (u : String) : InMsg := ⟨"", some u⟩

/-- Accumulated observable outcome of a run of processMessage calls for
one chat: current session state and data, total replies sent, and all
property records persisted, in order. -/
structure RunResult where
  state : String
  data : CollectedData
  replies : Nat
  persisted : List PropertyRecord
deriving DecidableEq, Repr

/-- Process one message against the running session, applying the session
write when processMessage performs one (the awaiting-images re-prompt
branch performs none and leaves the session as it was). -/
def runStep (chatId : String) (r : RunResult) (m : InMsg) : RunResult :=
  let res := processMessage chatId m.text m.photoUrl r.state r.data
  match res.write with
  | some sd =>
    ⟨sd.1, sd.2, r.replies + res.replies, r.persisted ++ res.persisted⟩
  | none =>
    ⟨r.state, r.data, r.replies + res.replies, r.persisted ++ res.persisted⟩

/-- Process a list of messages in order for one chat. -/
def runMsgs (chatId : String) (r : RunResult) (msgs : List InMsg) : RunResult :=
  msgs.foldl (runStep chatId) r

/-- A fresh session as created by getUserSession in src/airtableConfig.js
lines 165-178: state initial, empty collected data. -/
def freshRun : RunResult := ⟨"initial", emptyData, 0, []⟩

/-- One inbound Telegram event as the webhook handler sees it
(src/server.js lines 364-392): chat id, the message id used as the
deduplication key, the text, and the uploaded URL of the attached photo
when there is one. -/
structure Event where
  chatId : String
  messageId : Nat
  text : String
  photoUrl : Option String
deriving DecidableEq, Repr

/-- One stored User Sessions row as read back by getUserSession. -/
structure ChatSession where
  chatId : String
  currentState : String
  collectedData : CollectedData
deriving DecidableEq, Repr

/-- Observable state of the running system: the processedMessages set in
insertion order (src/server.js line 113), the session rows, the persisted
property records, the number of outbound replies sent, and the number of
updateUserSession writes performed. -/
structure SysState where
  processed : List Nat
  sessions : List ChatSession
  persisted : List PropertyRecord
  replies : Nat
  stateWrites : Nat
deriving DecidableEq, Repr

/-- Lookup of a session row by chat id, modeling the filterByFormula
select in getUserSession (src/airtableConfig.js lines 133-148). -/
def findSession (ss : List ChatSession) (cid : String) : Option ChatSession :=
  ss.find? (fun s => s.chatId == cid)

/-- Upsert of a session row, modeling updateUserSession
(src/airtableConfig.js lines 199-249): update the matching row when one
exists, otherwise create it. -/
def upsertSession (ss : List ChatSession) (cid : String) (st : String)
    (d : CollectedData) : List ChatSession :=
  match ss with
  | [] => [⟨cid, st, d⟩]
  | s :: rest =>
    if s.chatId == cid then ⟨cid, st, d⟩ :: rest
    else s :: upsertSession rest cid st d

/-- Application of one StepResult to the system: commit the session write
when processMessage performed one, append the persisted records, and count
the replies. -/
def applyStep (sys : SysState) (processed : List Nat)
    (sessions : List ChatSession) (cid : String) (res : StepResult) : SysState :=
  match res.write with
  | some sd =>
    ⟨processed, upsertSession sessions cid sd.1 sd.2,
      sys.persisted ++ res.persisted, sys.replies + res.replies,
      sys.stateWrites + 1⟩
  | none =>
    ⟨processed, sessions, sys.persisted ++ res.persisted,
      sys.replies + res.replies, sys.stateWrites⟩

/-- Model of the webhook handler of src/server.js lines 384-425: drop the
event when its message id was already processed, otherwise record the id
(the primary server never evicts from this set), load the session or
create a fresh initial one (getUserSession, src/airtableConfig.js lines
124-196), run processMessage and commit its outcome. -/
def handleEvent (sys : SysState) (ev : Event) : SysState :=
  if sys.processed.contains ev.messageId then sys
  else
    let processed := sys.processed ++ [ev.messageId]
    match findSession sys.sessions ev.chatId with
    | some s =>
      applyStep sys processed sys.sessions ev.chatId
        (processMessage ev.chatId ev.text ev.photoUrl s.currentState s.collectedData)
    | none =>
      applyStep sys processed (sys.sessions ++ [⟨ev.chatId, "initial", emptyData⟩])
        ev.chatId
        (processMessage ev.chatId ev.text ev.photoUrl "initial" emptyData)

/-- Process a list of inbound events in order. -/
def runEvents (sys : SysState) (evs : List Event) : SysState :=
  evs.foldl handleEvent sys

/-- The system at startup: nothing processed, no sessions, no records. -/
def sysStart : SysState := ⟨[], [], [], 0, 0⟩

/-- A stream of n events with distinct message ids 0..n-1 for one chat. -/
def evSeq (n : Nat) : List Event :=
  (List.range n).map (fun i => ⟨"chat1", i, "hello", none⟩)

/-- Model of the deduplication insert of the embedded webhook variant
(src/airtableConfig.js lines 596-608): skip a seen key; otherwise append
it and, when the set size exceeds 1000, delete the oldest entry in
insertion order. -/
def dedupInsert (seen : List String) (k : String) : List String :=
  if seen.contains k then seen
  else if 1000 < (seen ++ [k]).length then (seen ++ [k]).tail
  else seen ++ [k]

/-- The seen-set of the embedded variant after a stream of keys. -/
def runDedup (ks : List String) : List String :=
  ks.foldl dedupInsert []

/-- Session timeout of the Google Sheets store variant
(src/server.js line 519): 30 minutes in milliseconds. -/
def SESSION_TIMEOUT : Nat := 30 * 60 * 1000

/-- One Sessions sheet row of the Google Sheets variant: chat id, state,
serialized data, and last-update time in epoch milliseconds. -/
structure SheetsRow where
  chatId : String
  state : String
  dataJson : String
  lastUpdated : Nat
deriving DecidableEq, Repr

/-- Model of getUserSession of the Google Sheets variant (src/server.js
lines 514-545): find the row for the chat id; when the row is older than
the session timeout return null. The row list is returned unchanged to
express that the call reads the sheet and never deletes from it. -/
def sheetsGetUserSession (rows : List SheetsRow) (chatId : String) (now : Nat) :
    Option SheetsRow × List SheetsRow :=
  match rows.find? (fun r => r.chatId == chatId) with
  | some s =>
    if SESSION_TIMEOUT < now - s.lastUpdated then (none, rows) else (some s, rows)
  | none => (none, rows)

/-- One User Sessions row of the Airtable variant, with its Last_Updated
field in epoch milliseconds. -/
structure AirRow where
  telegramId : String
  currentState : String
  collectedData : CollectedData
  lastUpdated : Nat
deriving DecidableEq, Repr

/-- Model of getUserSession of the Airtable variant
(src/airtableConfig.js lines 124-196): return the found row as is - the
function never reads Last_Updated and applies no timeout - or create and
return a fresh initial row when none exists. -/
def airtableGetUserSession (store : List AirRow) (telegramId : String) (now : Nat) :
    AirRow × List AirRow :=
  match store.find? (fun r => r.telegramId == telegramId) with
  | some r => (r, store)
  | none => (⟨telegramId, "initial", emptyData, now⟩,
      store ++ [⟨telegramId, "initial", emptyData, now⟩])

/-- Base backoff delay in milliseconds, RETRY_DELAY of
src/airtableConfig.js line 14 and the literal 1000 of src/server.js
line 129. -/
def RETRY_DELAY : Nat := 1000

/-- Retry attempt budget, MAX_RETRIES of src/airtableConfig.js line 13
and the maxRetries default of sendTelegramMessage (src/server.js
line 116). -/
def MAX_RETRIES : Nat := 3

/-- Recursive core of the retry loop. The argument fn gives the outcome
of each attempt by zero-based index; rem counts the attempts still
allowed after the current one. Returns the surfaced result, the number of
attempts made, and the list of backoff delays slept, in order. On the
last allowed attempt the outcome is surfaced directly with no further
sleep, matching the throw of lastError after the loop. -/
def withRetryGo (fn : Nat → Except ε α) (base : Nat) :
    Nat → Nat → Except ε α × Nat × List Nat
  | i, 0 => (fn i, 1, [])
  | i, rem + 1 =>
    match fn i with
    | Except.ok a => (Except.ok a, 1, [])
    | Except.error _ =>
      let r := withRetryGo fn base (i + 1) rem
      (r.1, r.2.1 + 1, base * (i + 1) :: r.2.2)

/-- Model of withRetry (src/airtableConfig.js lines 52-66) and of the
identical retry loop inside sendTelegramMessage (src/server.js lines
116-134) and the Google Sheets withRetry (src/server.js lines 498-512):
up to maxRetries attempts, sleeping base times the one-based attempt
index after each failed non-final attempt, returning the first success
immediately and otherwise the error of the final attempt. -/
def withRetry (fn : Nat → Except ε α) (maxRetries : Nat) :
    Except ε α × Nat × List Nat :=
  withRetryGo fn RETRY_DELAY 0 (maxRetries - 1)

/-- The eight text inputs of the specification scenario, in order. -/
def scenarioMsgs : List InMsg :=
  [textMsg "123 Main St", textMsg "10001", textMsg "3", textMsg "2",
   textMsg "120", textMsg "500000", textMsg "pool", textMsg "yes"]

/-- The scenario inputs preceded by one greeting-consuming input, which
the initial state swallows without storing anything. -/
def scenarioMsgsGreeted : List InMsg := textMsg "hi" :: scenarioMsgs

/-- A sample collectedData with some fields filled, used as a concrete
session payload in witnesses and counterexamples. -/
def confirmData : CollectedData :=
  { emptyData with address := some "10 A St", amenities := some "pool" }

/-- Behavior of processMessage in the awaiting-confirmation state, read
off the source by unfolding (src/server.js lines 310-318). -/
theorem processMessage_confirmation (cid text : String) (p : Option String)
    (d : CollectedData) :
    processMessage cid text p "awaiting_confirmation" d =
      if jsToLowerCase text == "yes" then
        ⟨some ("awaiting_images", d), 1, []⟩
      else
        ⟨some ("awaiting_address", emptyData), 1, []⟩ := rfl

/-- Behavior of processMessage in the awaiting-images state, read off
the source by unfolding (src/server.js lines 320-337). -/
theorem processMessage_images (cid text : String) (p : Option String)
    (d : CollectedData) :
    processMessage cid text p "awaiting_images" d =
      if jsToLowerCase text == "done" then
        ⟨some ("initial", emptyData), 1, [propertyFromData cid d]⟩
      else
        match p with
        | some u =>
          ⟨some ("awaiting_images",
            { d with imageUrl := some ((d.imageUrl.getD []) ++ [u]) }),
           1, [photoSideRecord]⟩
        | none => ⟨none, 1, []⟩ := rfl

/-- Claim C1 as stated is false on the code: the initial state consumes
the first scenario input without storing it, so the eight inputs leave
the session one step short, in awaiting_confirmation with every field
shifted by one (address captures the zip input), and nothing persisted. -/
theorem C1_counterexample :
    (runMsgs "77" freshRun scenarioMsgs).state = "awaiting_confirmation" ∧
    (runMsgs "77" freshRun scenarioMsgs).state ≠ "awaiting_images" ∧
    (runMsgs "77" freshRun scenarioMsgs).persisted = [] ∧
    (runMsgs "77" freshRun scenarioMsgs).data.address = some "10001" := by
  refine ⟨rfl, by decide, rfl, rfl⟩

/-- Claim C1, amended: with one extra leading input to absorb the
greeting, the nine inputs leave the session in awaiting_images holding
exactly the scenario field values with nothing persisted yet; the record
with those values is persisted when a subsequent done input is processed,
which also resets the session to initial. -/
theorem C1_amended_ok :
    (runMsgs "77" freshRun scenarioMsgsGreeted).state = "awaiting_images" ∧
    (runMsgs "77" freshRun scenarioMsgsGreeted).data =
      ⟨some "123 Main St", some "10001", some (JsNum.val 3), some (JsNum.val 2),
       some (JsNum.val 120), some (JsNum.val 500000), some "pool", none⟩ ∧
    (runMsgs "77" freshRun scenarioMsgsGreeted).persisted = [] ∧
    (runMsgs "77" freshRun (scenarioMsgsGreeted ++ [textMsg "done"])).persisted =
      [⟨some "77", some "123 Main St", some "10001", some (JsNum.val 3),
        some (JsNum.val 2), some (JsNum.val 120), some (JsNum.val 500000),
        some "pool", none⟩] ∧
    (runMsgs "77" freshRun (scenarioMsgsGreeted ++ [textMsg "done"])).state =
      "initial" := by
  refine ⟨rfl, rfl, rfl, rfl, rfl⟩

/-- Claim C2 as stated is false on the code: confirming with yes
transitions to awaiting_images but performs no persist at all - the
persisted list of the step is empty, not a single record. Persistence
happens only later, on the done input. -/
theorem C2_counterexample :
    processMessage "5" "yes" none "awaiting_confirmation" confirmData =
      ⟨some ("awaiting_images", confirmData), 1, []⟩ ∧
    (processMessage "5" "yes" none "awaiting_confirmation" confirmData).persisted
      = [] := by
  exact ⟨rfl, rfl⟩

/-- Claim C2, amended: in awaiting_confirmation a case-insensitive yes
transitions to awaiting_images with the data kept and no persist effect;
a case-insensitive no clears collectedData and transitions to
awaiting_address; the single persist of the listing happens later, when
done is processed in awaiting_images, and that step persists exactly one
record. -/
theorem C2_amended_ok :
    ∀ (cid text : String) (p : Option String) (d : CollectedData),
    (jsToLowerCase text = "yes" →
      processMessage cid text p "awaiting_confirmation" d =
        ⟨some ("awaiting_images", d), 1, []⟩) ∧
    (jsToLowerCase text = "no" →
      processMessage cid text p "awaiting_confirmation" d =
        ⟨some ("awaiting_address", emptyData), 1, []⟩) ∧
    (processMessage cid "done" none "awaiting_images" d).persisted =
      [propertyFromData cid d] := by
  intro cid text p d
  refine ⟨?_, ?_, rfl⟩
  · intro h
    rw [processMessage_confirmation, h]
    rfl
  · intro h
    rw [processMessage_confirmation, h]
    rfl

/-- Witness for the amended claim C2 at concrete inputs. -/
theorem C2_amended_witness :
    processMessage "5" "YES" none "awaiting_confirmation" confirmData =
      ⟨some ("awaiting_images", confirmData), 1, []⟩ ∧
    processMessage "5" "No" none "awaiting_confirmation" confirmData =
      ⟨some ("awaiting_address", emptyData), 1, []⟩ ∧
    (processMessage "5" "done" none "awaiting_images" confirmData).persisted =
      [propertyFromData "5" confirmData] :=
  ⟨(C2_amended_ok "5" "YES" none confirmData).1 (by decide),
   (C2_amended_ok "5" "No" none confirmData).2.1 (by decide),
   (C2_amended_ok "5" "x" none confirmData).2.2⟩

/-- Claim C4: evaluation at the failing input. A single confirmation
flow in awaiting_images that receives one photo and then done persists
two Properties records, not one: the photo-triggered addProperty call
inside handleImage creates an extra record, and that record carries none
of the listing data and not even the image URL, because addProperty does
not read the propertyId and imageUrls keys handleImage passes it. -/
theorem C4_bug_eval :
    (runMsgs "9" ⟨"awaiting_images", confirmData, 0, []⟩
        [photoMsg "u1", textMsg "done"]).persisted =
      [photoSideRecord,
       propertyFromData "9" { confirmData with imageUrl := some ["u1"] }] ∧
    photoSideRecord.telegramId = none ∧
    photoSideRecord.imageUrl = none := by
  refine ⟨rfl, rfl, rfl⟩

/-- Claim C5 as stated is false on the code: an input that is neither yes
nor no, here the input maybe, does not leave the state and data
unchanged - it is handled by the else branch, which clears collectedData
and moves the session to awaiting_address. -/
theorem C5_counterexample :
    processMessage "5" "maybe" none "awaiting_confirmation" confirmData =
      ⟨some ("awaiting_address", emptyData), 1, []⟩ ∧
    confirmData ≠ emptyData := by
  refine ⟨rfl, by decide⟩

/-- Claim C5, amended: in awaiting_confirmation every input that is not
a case-insensitive yes - including inputs that are neither yes nor no -
is handled by the no branch: it clears collectedData and transitions to
awaiting_address, sending one reply; no branch re-prompts in place. -/
theorem C5_amended_ok :
    ∀ (cid text : String) (p : Option String) (d : CollectedData),
    jsToLowerCase text ≠ "yes" →
    processMessage cid text p "awaiting_confirmation" d =
      ⟨some ("awaiting_address", emptyData), 1, []⟩ := by
  intro cid text p d h
  have hb : (jsToLowerCase text == "yes") = false := beq_eq_false_iff_ne.mpr h
  rw [processMessage_confirmation, hb]
  rfl

/-- Witness for the amended claim C5 at a concrete input. -/
theorem C5_amended_witness :
    processMessage "5" "perhaps" none "awaiting_confirmation" confirmData =
      ⟨some ("awaiting_address", emptyData), 1, []⟩ :=
  C5_amended_ok "5" "perhaps" none confirmData (by decide)

/-- Claim C7 as stated is false on the code: a non-numeric input to a
numeric field is not accepted as-is - parseInt turns it into NaN, and a
partially numeric input is truncated to its numeric prefix, so the raw
input value is not what gets captured. The session still advances. -/
theorem C7_counterexample :
    (processMessage "5" "abc" none "awaiting_bedrooms" emptyData).write =
      some ("awaiting_bathrooms", { emptyData with bedrooms := some JsNum.nan }) ∧
    jsParseInt "abc" = JsNum.nan ∧
    jsParseInt "12abc" = JsNum.val 12 := by
  refine ⟨rfl, rfl, by decide⟩

/-- Claim C7, amended: each of the four numeric states stores the
parseInt coercion of the text - the integer value of its numeric prefix,
or NaN when there is none - in its field and always advances to the next
state with one reply and no rejection or re-prompt. -/
theorem C7_amended_ok :
    ∀ (cid text : String) (p : Option String) (d : CollectedData),
    processMessage cid text p "awaiting_bedrooms" d =
      ⟨some ("awaiting_bathrooms",
        { d with bedrooms := some (jsParseInt text) }), 1, []⟩ ∧
    processMessage cid text p "awaiting_bathrooms" d =
      ⟨some ("awaiting_size",
        { d with bathrooms := some (jsParseInt text) }), 1, []⟩ ∧
    processMessage cid text p "awaiting_size" d =
      ⟨some ("awaiting_price",
        { d with size := some (jsParseInt text) }), 1, []⟩ ∧
    processMessage cid text p "awaiting_price" d =
      ⟨some ("awaiting_amenities",
        { d with price := some (jsParseInt text) }), 1, []⟩ :=
  fun _ _ _ _ => ⟨rfl, rfl, rfl, rfl⟩

/-- Witness for the amended claim C7 at a concrete non-numeric input. -/
theorem C7_amended_witness :
    processMessage "5" "abc" none "awaiting_bedrooms" emptyData =
      ⟨some ("awaiting_bathrooms",
        { emptyData with bedrooms := some (jsParseInt "abc") }), 1, []⟩ :=
  (C7_amended_ok "5" "abc" none emptyData).1

/-- Processing a stream of captionless photo messages in awaiting_images
keeps the session in awaiting_images and appends the uploaded URLs to the
image list in receipt order. -/
theorem runMsgs_photos (cid : String) (us : List String) :
    ∀ r : RunResult, r.state = "awaiting_images" →
      (runMsgs cid r (us.map photoMsg)).state = "awaiting_images" ∧
      (runMsgs cid r (us.map photoMsg)).data.imageUrl.getD [] =
        r.data.imageUrl.getD [] ++ us := by
  induction us with
  | nil =>
    intro r h
    simpa [runMsgs] using h
  | cons u rest ih =>
    intro r h
    obtain ⟨st, d, rep, per⟩ := r
    simp only at h
    subst h
    have hstep :
        runMsgs cid ⟨"awaiting_images", d, rep, per⟩ ((u :: rest).map photoMsg) =
          runMsgs cid
            ⟨"awaiting_images",
              { d with imageUrl := some (d.imageUrl.getD [] ++ [u]) },
              rep + 1, per ++ [photoSideRecord]⟩
            (rest.map photoMsg) := rfl
    rw [hstep]
    have h2 := ih
      ⟨"awaiting_images",
        { d with imageUrl := some (d.imageUrl.getD [] ++ [u]) },
        rep + 1, per ++ [photoSideRecord]⟩ rfl
    refine ⟨h2.1, ?_⟩
    rw [h2.2]
    simp

/-- Claim C6, confirmed: in awaiting_images every photo attachment whose
caption is not done appends the uploaded URL to the image list while the
session remains in awaiting_images - so a stream of photos appends its
URLs in receipt order - and a case-insensitive done input writes state
initial with cleared collectedData. -/
theorem C6_ok :
    (∀ (cid text : String) (d : CollectedData) (u : String),
      jsToLowerCase text ≠ "done" →
      processMessage cid text (some u) "awaiting_images" d =
        ⟨some ("awaiting_images",
          { d with imageUrl := some ((d.imageUrl.getD []) ++ [u]) }),
         1, [photoSideRecord]⟩) ∧
    (∀ (cid : String) (us : List String) (r : RunResult),
      r.state = "awaiting_images" →
      (runMsgs cid r (us.map photoMsg)).state = "awaiting_images" ∧
      (runMsgs cid r (us.map photoMsg)).data.imageUrl.getD [] =
        r.data.imageUrl.getD [] ++ us) ∧
    (∀ (cid text : String) (p : Option String) (d : CollectedData),
      jsToLowerCase text = "done" →
      processMessage cid text p "awaiting_images" d =
        ⟨some ("initial", emptyData), 1, [propertyFromData cid d]⟩) := by
  refine ⟨?_, ?_, ?_⟩
  · intro cid text d u h
    have hb : (jsToLowerCase text == "done") = false := beq_eq_false_iff_ne.mpr h
    rw [processMessage_images, hb]
    rfl
  · intro cid us r h
    exact runMsgs_photos cid us r h
  · intro cid text p d h
    rw [processMessage_images, h]
    rfl

/-- Witness for claim C6 at concrete inputs: one photo appends its URL,
a two-photo stream appends both in order, and an uppercase DONE resets
the session to initial with cleared data. -/
theorem C6_witness :
    processMessage "c" "" (some "u1") "awaiting_images" confirmData =
      ⟨some ("awaiting_images",
        { confirmData with
            imageUrl := some ((confirmData.imageUrl.getD []) ++ ["u1"]) }),
       1, [photoSideRecord]⟩ ∧
    ((runMsgs "c" ⟨"awaiting_images", confirmData, 0, []⟩
        (["u1", "u2"].map photoMsg)).state = "awaiting_images" ∧
     (runMsgs "c" ⟨"awaiting_images", confirmData, 0, []⟩
        (["u1", "u2"].map photoMsg)).data.imageUrl.getD [] =
       (⟨"awaiting_images", confirmData, 0, []⟩ : RunResult).data.imageUrl.getD []
         ++ ["u1", "u2"]) ∧
    processMessage "c" "DONE" none "awaiting_images" confirmData =
      ⟨some ("initial", emptyData), 1, [propertyFromData "c" confirmData]⟩ :=
  ⟨C6_ok.1 "c" "" confirmData "u1" (by decide),
   C6_ok.2.1 "c" ["u1", "u2"] ⟨"awaiting_images", confirmData, 0, []⟩ rfl,
   C6_ok.2.2 "c" "DONE" none confirmData (by decide)⟩

/-- Processed-set component of applyStep is exactly its argument. -/
theorem applyStep_processed (sys : SysState) (processed : List Nat)
    (sessions : List ChatSession) (cid : String) (res : StepResult) :
    (applyStep sys processed sessions cid res).processed = processed := by
  unfold applyStep
  split <;> rfl

/-- Reply count of applyStep grows by exactly the step replies. -/
theorem applyStep_replies (sys : SysState) (processed : List Nat)
    (sessions : List ChatSession) (cid : String) (res : StepResult) :
    (applyStep sys processed sessions cid res).replies =
      sys.replies + res.replies := by
  unfold applyStep
  split <;> rfl

/-- Session-write count of applyStep grows by at most one. -/
theorem applyStep_stateWrites (sys : SysState) (processed : List Nat)
    (sessions : List ChatSession) (cid : String) (res : StepResult) :
    (applyStep sys processed sessions cid res).stateWrites ≤
      sys.stateWrites + 1 := by
  unfold applyStep
  split
  · exact Nat.le_refl _
  · exact Nat.le_succ _

/-- Every branch of the processMessage switch sends exactly one reply. -/
theorem processMessageSwitch_replies (cid text : String) (p : Option String)
    (st : String) (d : CollectedData) :
    (processMessageSwitch cid text p st d).replies = 1 := by
  unfold processMessageSwitch
  by_cases h1 : (st == "initial") = true
  · rw [if_pos h1]
  rw [if_neg h1]
  by_cases h2 : (st == "awaiting_address") = true
  · rw [if_pos h2]
  rw [if_neg h2]
  by_cases h3 : (st == "awaiting_zip") = true
  · rw [if_pos h3]
  rw [if_neg h3]
  by_cases h4 : (st == "awaiting_bedrooms") = true
  · rw [if_pos h4]
  rw [if_neg h4]
  by_cases h5 : (st == "awaiting_bathrooms") = true
  · rw [if_pos h5]
  rw [if_neg h5]
  by_cases h6 : (st == "awaiting_size") = true
  · rw [if_pos h6]
  rw [if_neg h6]
  by_cases h7 : (st == "awaiting_price") = true
  · rw [if_pos h7]
  rw [if_neg h7]
  by_cases h8 : (st == "awaiting_amenities") = true
  · rw [if_pos h8]
  rw [if_neg h8]
  by_cases h9 : (st == "awaiting_confirmation") = true
  · rw [if_pos h9]
    by_cases hy : (jsToLowerCase text == "yes") = true
    · rw [if_pos hy]
    rw [if_neg hy]
  rw [if_neg h9]
  by_cases h10 : (st == "awaiting_images") = true
  · rw [if_pos h10]
    by_cases hd : (jsToLowerCase text == "done") = true
    · rw [if_pos hd]
    rw [if_neg hd]
    cases p <;> rfl
  rw [if_neg h10]

/-- Every branch of processMessage sends exactly one reply. -/
theorem processMessage_replies (cid text : String) (p : Option String)
    (st : String) (d : CollectedData) :
    (processMessage cid text p st d).replies = 1 := by
  unfold processMessage
  exact processMessageSwitch_replies _ _ _ _ _

/-- A duplicate event is dropped whole: when the message id is already in
the processed set, handleEvent changes nothing. -/
theorem handleEvent_already (sys : SysState) (ev : Event)
    (h : sys.processed.contains ev.messageId = true) :
    handleEvent sys ev = sys := by
  unfold handleEvent
  rw [h, if_pos rfl]

/-- Behavior of handleEvent on an unseen message id: the duplicate guard
falls through to the session lookup and processing. -/
theorem handleEvent_not_seen (sys : SysState) (ev : Event)
    (h : sys.processed.contains ev.messageId = false) :
    handleEvent sys ev =
      match findSession sys.sessions ev.chatId with
      | some s =>
        applyStep sys (sys.processed ++ [ev.messageId]) sys.sessions ev.chatId
          (processMessage ev.chatId ev.text ev.photoUrl s.currentState
            s.collectedData)
      | none =>
        applyStep sys (sys.processed ++ [ev.messageId])
          (sys.sessions ++ [⟨ev.chatId, "initial", emptyData⟩]) ev.chatId
          (processMessage ev.chatId ev.text ev.photoUrl "initial" emptyData) := by
  unfold handleEvent
  rw [h]
  rfl

/-- Appending an element makes a Nat list contain it. -/
theorem contains_append_self (l : List Nat) (x : Nat) :
    (l ++ [x]).contains x = true := by
  simp [List.elem_eq_mem]

/-- Processed set of handleEvent on an unseen id: the id is appended. -/
theorem handleEvent_processed_not_seen (sys : SysState) (ev : Event)
    (h : sys.processed.contains ev.messageId = false) :
    (handleEvent sys ev).processed = sys.processed ++ [ev.messageId] := by
  rw [handleEvent_not_seen sys ev h]
  cases hf : findSession sys.sessions ev.chatId <;>
    simp [hf, applyStep_processed]

/-- After handleEvent the processed set always contains the event id. -/
theorem handleEvent_contains (sys : SysState) (ev : Event) :
    (handleEvent sys ev).processed.contains ev.messageId = true := by
  cases h : sys.processed.contains ev.messageId
  · rw [handleEvent_processed_not_seen sys ev h]
    exact contains_append_self _ _
  · rw [handleEvent_already sys ev h]
    exact h

/-- Claim C8 as stated is false on the code: there is an inbound event
whose delivery - even once - performs zero session mutations, namely any
non-done text without a photo arriving while the session is in
awaiting_images; the re-prompt branch calls no updateUserSession.
Delivering it twice still yields one reply and zero session writes, not
exactly one of each. -/
theorem C8_counterexample :
    (handleEvent
        (handleEvent ⟨[], [⟨"5", "awaiting_images", emptyData⟩], [], 0, 0⟩
          ⟨"5", 42, "hello", none⟩)
        ⟨"5", 42, "hello", none⟩).stateWrites = 0 ∧
    (handleEvent
        (handleEvent ⟨[], [⟨"5", "awaiting_images", emptyData⟩], [], 0, 0⟩
          ⟨"5", 42, "hello", none⟩)
        ⟨"5", 42, "hello", none⟩).replies = 1 := by
  refine ⟨rfl, rfl⟩

/-- Claim C8, amended: the second delivery of an event id is detected as
a duplicate and is a complete no-op - handleEvent is idempotent - so two
deliveries yield in total exactly one outbound reply and at most one
session state write (exactly one except in the awaiting_images re-prompt
branch, which performs no session write at all). -/
theorem C8_amended_ok :
    ∀ (sys : SysState) (ev : Event),
    handleEvent (handleEvent sys ev) ev = handleEvent sys ev ∧
    (sys.processed.contains ev.messageId = false →
      (handleEvent sys ev).replies = sys.replies + 1 ∧
      (handleEvent sys ev).stateWrites ≤ sys.stateWrites + 1) := by
  intro sys ev
  constructor
  · exact handleEvent_already _ _ (handleEvent_contains sys ev)
  · intro h
    rw [handleEvent_not_seen sys ev h]
    constructor
    · cases hf : findSession sys.sessions ev.chatId <;>
        simp [hf, applyStep_replies, processMessage_replies]
    · cases hf : findSession sys.sessions ev.chatId <;>
        simp only [hf] <;>
        exact applyStep_stateWrites _ _ _ _ _

/-- Witness for the amended claim C8 at a concrete system and event. -/
theorem C8_amended_witness :
    handleEvent (handleEvent sysStart ⟨"5", 1, "hello", none⟩)
        ⟨"5", 1, "hello", none⟩ =
      handleEvent sysStart ⟨"5", 1, "hello", none⟩ ∧
    (handleEvent sysStart ⟨"5", 1, "hello", none⟩).replies =
      sysStart.replies + 1 ∧
    (handleEvent sysStart ⟨"5", 1, "hello", none⟩).stateWrites ≤
      sysStart.stateWrites + 1 :=
  ⟨(C8_amended_ok sysStart ⟨"5", 1, "hello", none⟩).1,
   (C8_amended_ok sysStart ⟨"5", 1, "hello", none⟩).2 (by decide)⟩

/-- The primary webhook handler, fed distinct message ids, accumulates
all of them: its processed set is never pruned. -/
theorem runEvents_evSeq_processed :
    ∀ n : Nat, (runEvents sysStart (evSeq n)).processed = List.range n := by
  intro n
  induction n with
  | zero => rfl
  | succ k ih =>
    have h1 : evSeq (k + 1) =
        evSeq k ++ [⟨"chat1", k, "hello", none⟩] := by
      simp [evSeq, List.range_succ]
    have h2 : runEvents sysStart (evSeq k ++ [⟨"chat1", k, "hello", none⟩]) =
        handleEvent (runEvents sysStart (evSeq k))
          ⟨"chat1", k, "hello", none⟩ := by
      simp [runEvents, List.foldl_append]
    have h3 : (runEvents sysStart (evSeq k)).processed.contains k = false := by
      rw [ih]
      simp [List.elem_eq_mem]
    rw [h1, h2, handleEvent_processed_not_seen _ _ h3, ih]
    simp [List.range_succ]

/-- Claim C9 as stated is false on the code: the primary webhook handler
of src/server.js never evicts from processedMessages, so after 1001
events with distinct message ids its seen-set holds 1001 entries,
exceeding the stated 1000-entry capacity. Only the embedded variant in
src/airtableConfig.js evicts. -/
theorem C9_counterexample :
    (runEvents sysStart (evSeq 1001)).processed.length = 1001 := by
  rw [runEvents_evSeq_processed]
  simp

/-- Bound preservation of one eviction-guarded insert of the embedded
webhook variant. -/
theorem dedupInsert_length_le (seen : List String) (k : String)
    (h : seen.length ≤ 1000) : (dedupInsert seen k).length ≤ 1000 := by
  unfold dedupInsert
  split
  · exact h
  · split
    · rename_i h2
      simp only [List.length_tail, List.length_append, List.length_cons,
        List.length_nil]
      omega
    · rename_i h2
      simp only [List.length_append, List.length_cons, List.length_nil] at h2 ⊢
      omega

/-- Bound preservation along any key stream of the embedded variant. -/
theorem runDedup_length_le_aux :
    ∀ (ks : List String) (seen : List String), seen.length ≤ 1000 →
      (ks.foldl dedupInsert seen).length ≤ 1000 := by
  intro ks
  induction ks with
  | nil => intro seen h; simpa using h
  | cons k rest ih =>
    intro seen h
    simp only [List.foldl_cons]
    exact ih _ (dedupInsert_length_le seen k h)

/-- Claim C9, amended: the embedded webhook variant bounds its seen-set
at 1000 entries by evicting the oldest entry in insertion order once the
capacity is exceeded, so its size never exceeds 1000 for any event
stream; the primary server has no eviction, and its seen-set grows past
1000 (to 1001 after 1001 distinct events) without bound. -/
theorem C9_amended_ok :
    (∀ ks : List String, (runDedup ks).length ≤ 1000) ∧
    (runEvents sysStart (evSeq 1001)).processed.length = 1001 := by
  constructor
  · intro ks
    exact runDedup_length_le_aux ks [] (by simp)
  · rw [runEvents_evSeq_processed]
    simp

/-- Witness for the amended claim C9 at a concrete key stream. -/
theorem C9_amended_witness :
    (runDedup ["k1", "k2", "k1"]).length ≤ 1000 :=
  C9_amended_ok.1 ["k1", "k2", "k1"]

/-- A concrete stored session whose last update lies further in the past
than the session timeout. -/
def expiredRow : AirRow := ⟨"7", "awaiting_price", emptyData, 0⟩

/-- Claim C3 as stated is false on the code: the Airtable getUserSession
used by the running server reads no timestamp at all, so a session last
updated far beyond the 30-minute timeout is returned as found, in its
stored state, instead of NotFound. Only the Google Sheets variant applies
the timeout. -/
theorem C3_counterexample :
    SESSION_TIMEOUT < 10000000 - expiredRow.lastUpdated ∧
    airtableGetUserSession [expiredRow] "7" 10000000 =
      (expiredRow, [expiredRow]) ∧
    expiredRow.currentState = "awaiting_price" := by
  refine ⟨by decide, rfl, rfl⟩

/-- Claim C3, amended: the Google Sheets variant of getUserSession
returns NotFound for every stored session whose last update is older
than the 30-minute timeout, whatever its stored state, and does not
delete the stored row; the Airtable variant used by the running server
performs no expiry check and returns the stored session regardless of
its age. -/
theorem C3_amended_ok :
    (∀ (rows : List SheetsRow) (cid : String) (now : Nat) (s : SheetsRow),
      rows.find? (fun r => r.chatId == cid) = some s →
      SESSION_TIMEOUT < now - s.lastUpdated →
      sheetsGetUserSession rows cid now = (none, rows)) ∧
    (∀ (store : List AirRow) (tid : String) (now : Nat) (r : AirRow),
      store.find? (fun q => q.telegramId == tid) = some r →
      airtableGetUserSession store tid now = (r, store)) := by
  constructor
  · intro rows cid now s hf ht
    unfold sheetsGetUserSession
    rw [hf]
    simp [ht]
  · intro store tid now r hf
    unfold airtableGetUserSession
    rw [hf]

/-- Witness for the amended claim C3 at concrete stores: an expired row
is NotFound under the Sheets variant with the row kept, and is returned
as is by the Airtable variant. -/
theorem C3_amended_witness :
    sheetsGetUserSession [⟨"7", "awaiting_price", "x", 0⟩] "7" 10000000 =
      (none, [⟨"7", "awaiting_price", "x", 0⟩]) ∧
    airtableGetUserSession [expiredRow] "7" 10000000 =
      (expiredRow, [expiredRow]) :=
  ⟨C3_amended_ok.1 [⟨"7", "awaiting_price", "x", 0⟩] "7" 10000000
      ⟨"7", "awaiting_price", "x", 0⟩ (by decide) (by decide),
   C3_amended_ok.2 [expiredRow] "7" 10000000 expiredRow (by decide)⟩

/-- Claim C10, confirmed: the retry wrapper makes at most 3 attempts; a
first success at attempt k is returned immediately after k earlier
failures with backoff delays of one and two times the base delay between
consecutive attempts; and an error is surfaced only when all 3 attempts
fail, in which case it is the error of the final attempt. The five
conjuncts cover the attempt bound and the four exhaustive outcome
shapes. -/
theorem C10_ok {ε α : Type} (fn : Nat → Except ε α) :
    (withRetry fn MAX_RETRIES).2.1 ≤ 3 ∧
    (∀ a, fn 0 = Except.ok a →
      withRetry fn MAX_RETRIES = (Except.ok a, 1, [])) ∧
    (∀ e a, fn 0 = Except.error e → fn 1 = Except.ok a →
      withRetry fn MAX_RETRIES = (Except.ok a, 2, [RETRY_DELAY * 1])) ∧
    (∀ e0 e1 a, fn 0 = Except.error e0 → fn 1 = Except.error e1 →
      fn 2 = Except.ok a →
      withRetry fn MAX_RETRIES =
        (Except.ok a, 3, [RETRY_DELAY * 1, RETRY_DELAY * 2])) ∧
    (∀ e0 e1 e2, fn 0 = Except.error e0 → fn 1 = Except.error e1 →
      fn 2 = Except.error e2 →
      withRetry fn MAX_RETRIES =
        (Except.error e2, 3, [RETRY_DELAY * 1, RETRY_DELAY * 2])) := by
  refine ⟨?_, ?_, ?_, ?_, ?_⟩
  · cases h0 : fn 0 with
    | ok a => simp [withRetry, MAX_RETRIES, withRetryGo, h0]
    | error e =>
      cases h1 : fn 1 with
      | ok a => simp [withRetry, MAX_RETRIES, withRetryGo, h0, h1]
      | error e1 => simp [withRetry, MAX_RETRIES, withRetryGo, h0, h1]
  · intro a h0
    simp [withRetry, MAX_RETRIES, withRetryGo, h0]
  · intro e a h0 h1
    simp [withRetry, MAX_RETRIES, withRetryGo, h0, h1]
  · intro e0 e1 a h0 h1 h2
    simp [withRetry, MAX_RETRIES, withRetryGo, h0, h1, h2]
  · intro e0 e1 e2 h0 h1 h2
    simp [withRetry, MAX_RETRIES, withRetryGo, h0, h1, h2]

/-- Witness for claim C10 with a concrete attempt function that fails
once and succeeds on the second attempt. -/
theorem C10_witness :
    (withRetry (fun i => if i = 0 then Except.error "boom" else Except.ok 7)
        MAX_RETRIES).2.1 ≤ 3 ∧
    withRetry (fun i => if i = 0 then Except.error "boom" else Except.ok 7)
        MAX_RETRIES = (Except.ok 7, 2, [RETRY_DELAY * 1]) :=
  ⟨(C10_ok
      (fun i => if i = 0 then Except.error "boom" else Except.ok 7)).1,
   (C10_ok
      (fun i => if i = 0 then Except.error "boom" else Except.ok 7)).2.2.1
     "boom" 7 rfl rfl⟩
